import Mathlib

/-!
Verification of the pywarpx accessor layer
(`Python/pywarpx/particle_containers.py`): the particle-ingestion and
attribute-broadcasting protocol of `ParticleContainerWrapper.add_particles`,
the coordinate accessors, and the boundary-buffer indexing scheme of
`ParticleBoundaryBufferWrapper`.

The embedding is shallow: numeric array contents are rational numbers,
Python exceptions are an explicit error type carried in `Except`, and the
opaque external engine objects (particle containers, the boundary-scrape
buffer, the process-wide geometry mode) are parameters of the definitions.
-/

set_option autoImplicit false

namespace PyWarpX

/-- The Python exceptions the module can raise, as observed by a caller.
`assertionError` is raised by a failed `assert` (the shape-mismatch checks),
`runtimeError` by an explicit `raise RuntimeError`, `keyError` by a failed
dictionary lookup, `indexError` by an out-of-range sequence index,
`nameError` by a reference to an undefined name, and `exception` by a plain
`raise Exception(...)`. -/
inductive PyErr where
  | assertionError (msg : String)
  | runtimeError (msg : String)
  | keyError (key : String)
  | indexError
  | nameError (nm : String)
  | attributeError (nm : String)
  | valueError (msg : String)
  | exception (msg : String)
  deriving DecidableEq, Repr

/-- The axis-name dictionary `dimensions` chosen by `_get_boundary_number`
from the process-wide geometry mode, or the `RuntimeError` for an unknown
geometry.  Mirrors lines 572-579 of the source. -/
def dimensionsFor (geom : String) : Except PyErr (List (String × Nat)) :=
  if geom == "3d" then .ok [("x", 0), ("y", 1), ("z", 2)]
  else if geom == "2d" || geom == "rz" then .ok [("x", 0), ("z", 1)]
  else if geom == "1d" then .ok [("z", 0)]
  else .error (.runtimeError ("Unknown simulation geometry: " ++ geom))

/-- Python dictionary read `d[k]`: the stored value, or a `KeyError`. -/
def dictGet (d : List (String × Nat)) (k : String) : Except PyErr Nat :=
  match d.find? (fun p => p.1 == k) with
  | some p => .ok p.2
  | none => .error (.keyError k)

/-- Python list read `l[i]` on a list of strings: the element, or an
`IndexError` when `i` is out of range. -/
def pyGet (l : List String) (i : Nat) : Except PyErr String :=
  match l.get? i with
  | some s => .ok s
  | none => .error .indexError

/-- Split a character list at every underscore.  Empty segments are kept,
as with Python's `str.split`. -/
def splitUnd : List Char → List (List Char)
  | [] => [[]]
  | c :: cs =>
    match splitUnd cs with
    | [] => if c = '_' then [[], [c]] else [[c]]
    | h :: t => if c = '_' then [] :: h :: t else (c :: h) :: t

/-- Python's `s.split("_")`: the segments of `s` between underscores,
empty segments included. -/
def pySplitUnderscore (s : String) : List String :=
  (splitUnd s.data).map (fun l => String.mk l)

/-- `ParticleBoundaryBufferWrapper._get_boundary_number`: translate a
symbolic boundary token to the integer index of the boundary-scrape buffer,
given the active geometry mode.  The geometry dictionary is computed first,
exactly as in the source, so an unknown geometry fails before the token is
inspected.  Exception propagation is rendered as explicit matches on the
intermediate `Except` values. -/
def get_boundary_number (geom boundary : String) : Except PyErr Nat :=
  match dimensionsFor geom with
  | .error e => .error e
  | .ok dims =>
    if boundary ≠ "eb" then
      match pyGet (pySplitUnderscore boundary) 0 with
      | .error e => .error e
      | .ok p0 =>
        match dictGet dims p0 with
        | .error e => .error e
        | .ok dim_num =>
          match pyGet (pySplitUnderscore boundary) 1 with
          | .error e => .error e
          | .ok p1 =>
            match (if p1 == "lo" then Except.ok 0
                   else if p1 == "hi" then Except.ok 1
                   else Except.error
                     (PyErr.runtimeError ("Unknown boundary specified: " ++ boundary)) :
                   Except PyErr Nat) with
            | .error e => .error e
            | .ok side => .ok (2 * dim_num + side)
    else
      if geom == "3d" then .ok 6
      else if geom == "2d" || geom == "rz" then .ok 4
      else if geom == "1d" then .ok 2
      else .error (.runtimeError ("Unknown simulation geometry: " ++ geom))

/-- The geometry modes the layer recognizes. -/
def geometryModes : List String := ["3d", "2d", "rz", "1d"]

/-- The axis dictionary of each recognized geometry mode, as pure data
(the `.ok` payload of `dimensionsFor`). -/
def axesFor (geom : String) : List (String × Nat) :=
  if geom == "3d" then [("x", 0), ("y", 1), ("z", 2)]
  else if geom == "2d" || geom == "rz" then [("x", 0), ("z", 1)]
  else if geom == "1d" then [("z", 0)]
  else []

instance {ε α : Type} [DecidableEq ε] [DecidableEq α] :
    DecidableEq (Except ε α) := fun x y =>
  match x, y with
  | .ok a, .ok b =>
    if h : a = b then isTrue (by rw [h])
    else isFalse (fun hc => h (Except.ok.inj hc))
  | .error e, .error f =>
    if h : e = f then isTrue (by rw [h])
    else isFalse (fun hc => h (Except.error.inj hc))
  | .ok _, .error _ => isFalse (fun hc => Except.noConfusion hc)
  | .error _, .ok _ => isFalse (fun hc => Except.noConfusion hc)

/-- The external per-species particle container, as consumed by
`add_particles`: its number of real components and the name-to-index
schema lookup. -/
structure ParticleContainer where
  num_real_comps : Nat
  get_comp_index : String → Nat

/-- An `add_particles` argument: `none` for an omitted (`None`) argument,
otherwise the numeric contents; a Python scalar is a length-1 array. -/
abbrev PyField := Option (List ℚ)

/-- `np.size` of an `add_particles` argument (`np.size(None) = 1`). -/
def np_size (f : PyField) : Nat :=
  match f with
  | none => 1
  | some l => l.length

/-- One step of the running `maxlen = max(maxlen, len)` computation; an
omitted argument is skipped by the `is not None` guard. -/
def fieldMax (m : Nat) (f : PyField) : Nat :=
  match f with
  | none => m
  | some l => max m l.length

/-- The batch size `maxlen` of `add_particles`: the maximum size over the
seven built-in arguments that were supplied, 0 when none was. -/
def maxlenOf (x y z ux uy uz w : PyField) : Nat :=
  fieldMax (fieldMax (fieldMax (fieldMax (fieldMax (fieldMax (fieldMax 0 x) y) z) ux) uy) uz) w

/-- The `assert` condition for one built-in argument: omitted, or of size
`maxlen`, or of size 1. -/
def fieldOk (f : PyField) (m : Nat) : Bool :=
  match f with
  | none => true
  | some l => l.length == m || l.length == 1

/-- The seven built-in arguments with their names, in the order the
source asserts them. -/
def builtinFields (x y z ux uy uz w : PyField) : List (String × PyField) :=
  [("x", x), ("y", y), ("z", z), ("ux", ux), ("uy", uy), ("uz", uz), ("w", w)]

/-- The name of the first built-in argument whose `assert` fails, if any. -/
def firstBadBuiltin (x y z ux uy uz w : PyField) (m : Nat) : Option String :=
  if !(fieldOk x m) then some "x"
  else if !(fieldOk y m) then some "y"
  else if !(fieldOk z m) then some "z"
  else if !(fieldOk ux m) then some "ux"
  else if !(fieldOk uy m) then some "uy"
  else if !(fieldOk uz m) then some "uz"
  else if !(fieldOk w m) then some "w"
  else none

/-- The key of the first keyword attribute whose `assert` fails, if any:
its size must be 1 or `maxlen`. -/
def firstBadKwarg (kwargs : List (String × List ℚ)) (m : Nat) : Option String :=
  match kwargs with
  | [] => none
  | (k, v) :: rest =>
    if v.length == 1 || v.length == m then firstBadKwarg rest m else some k

/-- Broadcasting of one built-in argument: a size-1 argument becomes
`np.full(maxlen, (arg or 0.))` — the scalar value, or 0 for an omitted
argument — and any other supplied argument is left as is. -/
def broadcastField (f : PyField) (m : Nat) : List ℚ :=
  match f with
  | none => List.replicate m 0
  | some l => if l.length == 1 then List.replicate m (l.headD 0) else l

/-- Broadcasting of the keyword attributes: a size-1 value becomes
`np.full(maxlen, val)`. -/
def broadcastKwargs (kwargs : List (String × List ℚ)) (m : Nat) :
    List (String × List ℚ) :=
  kwargs.map (fun kv =>
    (kv.1, if kv.2.length == 1 then List.replicate m (kv.2.headD 0) else kv.2))

/-- The count of built-in (non-weight) real attributes: the three
velocities, plus theta in RZ geometry. -/
def builtInAttrs (geom : String) : Nat :=
  if geom == "rz" then 4 else 3

/-- numpy resolution of a (possibly negative) column index against a table
of `nattr` columns. -/
def npEffIndex (nattr : Nat) (c : Int) : Int :=
  if c < 0 then c + nattr else c

/-- numpy column assignment `attr[:, c] = vals` on a table with `nattr`
columns: a negative index wraps by `nattr`, and an index still out of
range raises `IndexError`.  The table is a function from (row, column). -/
def npSetColumn (nattr : Nat) (attr : Nat → Nat → ℚ) (c : Int) (vals : List ℚ) :
    Except PyErr (Nat → Nat → ℚ) :=
  if 0 ≤ npEffIndex nattr c ∧ npEffIndex nattr c < nattr then
    .ok (fun i j => if j = (npEffIndex nattr c).toNat then vals.getD i 0 else attr i j)
  else .error .indexError

/-- The keyword-attribute loop of `add_particles`: each (already
broadcast) value is assigned to column `get_comp_index(key) -
built_in_attrs` of the attribute table. -/
def applyKwargAttrs (pc : ParticleContainer) (geom : String) (nattr : Nat)
    (attr : Nat → Nat → ℚ) : List (String × List ℚ) → Except PyErr (Nat → Nat → ℚ)
  | [] => .ok attr
  | (k, v) :: rest =>
    match npSetColumn nattr attr ((pc.get_comp_index k : Int) - builtInAttrs geom) v with
    | .error e => .error e
    | .ok attr2 => applyKwargAttrs pc geom nattr attr2 rest

/-- The batch handed to the external container's `add_n_particles`:
`(0, x.size, x, y, z, ux, uy, uz, nattr, attr, nattr_int, attr_int,
unique_particles)`. -/
structure Batch where
  n : Nat
  x : List ℚ
  y : List ℚ
  z : List ℚ
  ux : List ℚ
  uy : List ℚ
  uz : List ℚ
  nattr : Nat
  attr : Nat → Nat → ℚ
  nattr_int : Nat
  attr_int : List Int
  unique_particles : Bool

/-- `ParticleContainerWrapper.add_particles`: size computation, the
max-length batch size, the shape asserts, broadcasting, the attribute
table (weights in column 0, keyword attributes by schema lookup), and the
final submission, with each failing Python statement rendered as an
`Except` error. -/
def add_particles (pc : ParticleContainer) (geom : String)
    (x y z ux uy uz w : PyField) (unique_particles : Bool)
    (kwargs : List (String × List ℚ)) : Except PyErr Batch :=
  let maxlen := maxlenOf x y z ux uy uz w
  match firstBadBuiltin x y z ux uy uz w maxlen with
  | some nm => .error (.assertionError ("Length of " ++ nm ++ " doesn\x27t match len of others"))
  | none =>
  match firstBadKwarg kwargs maxlen with
  | some nm => .error (.assertionError ("Length of " ++ nm ++ " doesn\x27t match len of others"))
  | none =>
    let xb := broadcastField x maxlen
    let yb := broadcastField y maxlen
    let zb := broadcastField z maxlen
    let uxb := broadcastField ux maxlen
    let uyb := broadcastField uy maxlen
    let uzb := broadcastField uz maxlen
    let wb := broadcastField w maxlen
    let kw := broadcastKwargs kwargs maxlen
    let nattrI : Int := (pc.num_real_comps : Int) - builtInAttrs geom
    if nattrI < 0 then .error (.valueError "negative dimensions are not allowed")
    else
      let nattr := nattrI.toNat
      match npSetColumn nattr (fun _ _ => 0) 0 wb with
      | .error e => .error e
      | .ok attr0 =>
        match applyKwargAttrs pc geom nattr attr0 kw with
        | .error e => .error e
        | .ok attr =>
          .ok ⟨xb.length, xb, yb, zb, uxb, uyb, uzb, nattr, attr, 0, [], unique_particles⟩

/-- `nm` names an offending input of `add_particles`: a built-in argument
that was supplied with size neither `maxlen` nor 1, or a keyword attribute
with such a size. -/
def offendingField (x y z ux uy uz w : PyField) (kwargs : List (String × List ℚ))
    (m : Nat) (nm : String) : Prop :=
  (∃ l, (nm, some l) ∈ builtinFields x y z ux uy uz w ∧ l.length ≠ m ∧ l.length ≠ 1)
  ∨ (∃ v, (nm, v) ∈ kwargs ∧ v.length ≠ 1 ∧ v.length ≠ m)

/-- A concrete container: 4 real components (weight plus the three
velocities), no extra attributes. -/
def sampleContainer : ParticleContainer := ⟨4, fun _ => 0⟩

/-- The batch produced by `add_particles sampleContainer "3d"
(some [5, 6]) none none none none none (some [7]) true []`. -/
def sampleBatch : Batch :=
  ⟨2, [5, 6], [0, 0], [0, 0], [0, 0], [0, 0], [0, 0], 1,
    fun i j => if j = 0 then (List.replicate 2 (7 : ℚ)).getD i 0 else 0, 0, [], true⟩

/-- A concrete container with two extra attributes: `"a"` at schema index
4 and every other name at index 5. -/
def sampleContainer2 : ParticleContainer := ⟨6, fun k => if k = "a" then 4 else 5⟩

/-- The batch produced by `add_particles sampleContainer2 "3d"
(some [1, 2]) none none none none none (some [7]) true
[("a", [9]), ("bb", [10, 11])]`. -/
def sampleBatch2 : Batch :=
  ⟨2, [1, 2], [0, 0], [0, 0], [0, 0], [0, 0], [0, 0], 3,
    fun i j =>
      if j = 2 then ([(10 : ℚ), 11]).getD i 0
      else if j = 1 then (List.replicate 2 (9 : ℚ)).getD i 0
      else if j = 0 then (List.replicate 2 (7 : ℚ)).getD i 0
      else 0,
    0, [], true⟩

/-- A per-tile particle struct array: the stored position fields of the
structured array (`struct['x']`, `struct['y']`, `struct['z']`). -/
structure PTile where
  x : List ℚ
  y : List ℚ
  z : List ℚ

/-- The engine data the coordinate accessors consume: the per-tile struct
arrays (`get_particle_structs`) and the per-tile named real attribute
arrays (`get_particle_arrays`). -/
structure PCWrapperData where
  structs : List PTile
  realArrays : String → List (List ℚ)

/-- `get_particle_theta`: the stored `theta` attribute in RZ, `arctan2(y, x)`
in 3d, an error in 1d/2d Cartesian, and Python's fall-through `None` on any
other geometry.  `atan2` is the (uninterpreted) floating `np.arctan2`. -/
def get_particle_theta (atan2 : ℚ → ℚ → ℚ) (geom : String) (d : PCWrapperData) :
    Except PyErr (Option (List (List ℚ))) :=
  if geom == "rz" then .ok (some (d.realArrays "theta"))
  else if geom == "3d" then
    .ok (some (d.structs.map (fun s => (s.y.zip s.x).map (fun p => atan2 p.1 p.2))))
  else if geom == "2d" || geom == "1d" then
    .error (.exception "get_particle_theta: There is no theta coordinate with 1D or 2D Cartesian")
  else .ok none

/-- `get_particle_x`: the stored `x` field in 3d/2d, `x*cos(theta)` in RZ,
an error in 1d, `None` otherwise.  `cos` is the uninterpreted `np.cos`. -/
def get_particle_x (cos : ℚ → ℚ) (atan2 : ℚ → ℚ → ℚ) (geom : String)
    (d : PCWrapperData) : Except PyErr (Option (List (List ℚ))) :=
  if geom == "3d" || geom == "2d" then .ok (some (d.structs.map PTile.x))
  else if geom == "rz" then
    match get_particle_theta atan2 geom d with
    | .error e => .error e
    | .ok none => .ok none
    | .ok (some thetas) =>
      .ok (some ((d.structs.zip thetas).map
        (fun st => (st.1.x.zip st.2).map (fun p => p.1 * cos p.2))))
  else if geom == "1d" then
    .error (.exception "get_particle_x: There is no x coordinate with 1D Cartesian")
  else .ok none

/-- `get_particle_y`: the stored `y` field in 3d, `x*sin(theta)` in RZ, an
error in 1d/2d Cartesian, `None` otherwise. -/
def get_particle_y (sin : ℚ → ℚ) (atan2 : ℚ → ℚ → ℚ) (geom : String)
    (d : PCWrapperData) : Except PyErr (Option (List (List ℚ))) :=
  if geom == "3d" then .ok (some (d.structs.map PTile.y))
  else if geom == "rz" then
    match get_particle_theta atan2 geom d with
    | .error e => .error e
    | .ok none => .ok none
    | .ok (some thetas) =>
      .ok (some ((d.structs.zip thetas).map
        (fun st => (st.1.x.zip st.2).map (fun p => p.1 * sin p.2))))
  else if geom == "1d" || geom == "2d" then
    .error (.exception "get_particle_y: There is no y coordinate with 1D or 2D Cartesian")
  else .ok none

/-- `get_particle_r`: the stored `x` field in RZ, `sqrt(x^2 + y^2)` in 3d,
an error in 1d/2d Cartesian, `None` otherwise.  `sqrt` is the
uninterpreted `np.sqrt`. -/
def get_particle_r (sqrt : ℚ → ℚ) (geom : String) (d : PCWrapperData) :
    Except PyErr (Option (List (List ℚ))) :=
  if geom == "rz" then .ok (some (d.structs.map PTile.x))
  else if geom == "3d" then
    .ok (some (d.structs.map (fun s => (s.x.zip s.y).map (fun p => sqrt (p.1 ^ 2 + p.2 ^ 2)))))
  else if geom == "2d" || geom == "1d" then
    .error (.exception "get_particle_r: There is no r coordinate with 1D or 2D Cartesian")
  else .ok none

/-- `get_particle_z`: the stored `z` field in 3d, the stored `y` field in
RZ/2d, the stored `x` field in 1d, `None` otherwise; never an error. -/
def get_particle_z (geom : String) (d : PCWrapperData) :
    Except PyErr (Option (List (List ℚ))) :=
  if geom == "3d" then .ok (some (d.structs.map PTile.z))
  else if geom == "rz" || geom == "2d" then .ok (some (d.structs.map PTile.y))
  else if geom == "1d" then .ok (some (d.structs.map PTile.x))
  else .ok none

/-- Modelled from the spec: the external boundary-scrape buffer is keyed
by (species, boundary index), offers a count query and a clear operation,
and clearing empties it (the count of every key becomes 0); the native
implementation of `clear_particles` and `get_num_particles_in_container`
is not part of this repository fragment. -/
structure ParticleBoundaryBuffer where
  counts : String → Nat → Nat

/-- Modelled from the spec: the engine's `clear_particles` empties the
boundary buffer. -/
def clear_particles (_pb : ParticleBoundaryBuffer) : ParticleBoundaryBuffer :=
  ⟨fun _ _ => 0⟩

/-- Modelled from the spec: the engine's count query reads the stored
count for (species, boundary index). -/
def get_num_particles_in_container (pb : ParticleBoundaryBuffer)
    (species : String) (bn : Nat) : Nat :=
  pb.counts species bn

/-- `ParticleBoundaryBufferWrapper.clear_buffer`: a single forwarded call. -/
def clear_buffer (pb : ParticleBoundaryBuffer) : ParticleBoundaryBuffer :=
  clear_particles pb

/-- `ParticleBoundaryBufferWrapper.get_particle_boundary_buffer_size`:
translate the boundary token, then forward the count query. -/
def get_particle_boundary_buffer_size (pb : ParticleBoundaryBuffer)
    (geom species boundary : String) : Except PyErr Nat :=
  match get_boundary_number geom boundary with
  | .error e => .error e
  | .ok bn => .ok (get_num_particles_in_container pb species bn)

/-- The boundary particle container of one (species, boundary index):
its integer component count and its per-tile integer/real attribute
arrays by component index, aliasing engine memory. -/
structure BufferPartContainer where
  num_int_comps : Nat
  intData : Nat → List (List Int)
  realData : Nat → List (List ℚ)

/-- Per-tile data returned by `get_particle_boundary_buffer`: integer
arrays for the synthetic `step_scraped` component, real arrays otherwise. -/
inductive BufferData where
  | intArrays (tiles : List (List Int))
  | realArrays (tiles : List (List ℚ))

/-- `ParticleBoundaryBufferWrapper.get_particle_boundary_buffer`:
translate the boundary token, fetch the boundary container, then read
the final integer component for `"step_scraped"` or the real component at
the index the species' simulation container reports for `comp_name`. -/
def get_particle_boundary_buffer (containers : String → Nat → BufferPartContainer)
    (mypc : String → ParticleContainer) (geom species boundary comp_name : String) :
    Except PyErr BufferData :=
  match get_boundary_number geom boundary with
  | .error e => .error e
  | .ok bn =>
    if comp_name == "step_scraped" then
      .ok (.intArrays ((containers species bn).intData
        ((containers species bn).num_int_comps - 1)))
    else
      .ok (.realArrays ((containers species bn).realData
        ((mypc species).get_comp_index comp_name)))

/-- The names defined at the scope of `particle_containers.py`: its two
imports (`np`, `libwarpx`) and its two classes.  `_LP_c_int`, `ctypes`
and `_libc` are not among them. -/
def moduleScopeNames : List String :=
  ["np", "libwarpx", "ParticleContainerWrapper", "ParticleBoundaryBufferWrapper"]

/-- Python name resolution at module scope: a `NameError` for a name that
is not defined. -/
def loadName (nm : String) : Except PyErr Unit :=
  if moduleScopeNames.contains nm then .ok () else .error (.nameError nm)

/-- `ParticleBoundaryBufferWrapper.get_particle_boundary_buffer_structs`:
its first statement `particles_per_tile = _LP_c_int()` loads the name
`_LP_c_int`, its second loads `ctypes`, and its third reads the attribute
`libwarpx_so` from a wrapper whose constructor only sets
`particle_buffer`; all three fail, so the body never reaches the engine
call or returns data. -/
def get_particle_boundary_buffer_structs (_geom _species _boundary : String)
    (_level : Nat) : Except PyErr BufferData :=
  match loadName "_LP_c_int" with
  | .error e => .error e
  | .ok _ =>
    match loadName "ctypes" with
    | .error e => .error e
    | .ok _ => .error (.attributeError "libwarpx_so")

/-- A concrete boundary-container table for the component-selection
witness: 2 integer components, tile data indexed by component. -/
def sampleBufContainers : String → Nat → BufferPartContainer :=
  fun _ _ => ⟨2, fun i => [[(i : Int)]], fun i => [[(i : ℚ)]]⟩

/-- A concrete simulation-container table mapping every attribute name to
schema index 5. -/
def sampleMypc : String → ParticleContainer := fun _ => ⟨6, fun _ => 5⟩

end PyWarpX

namespace PyWarpX

/-- **C2.**  For every recognized geometry mode and every axis of that mode,
`_get_boundary_number` maps the token `axis_lo` to `2*axis`, `axis_hi` to
`2*axis + 1` (axes numbered 3d: x=0, y=1, z=2; 2d/rz: x=0, z=1; 1d: z=0),
and the token `"eb"` to twice the number of axes; in particular `"x_lo"` in
3d gives 0, `"z_hi"` in 3d gives 5, `"eb"` in 3d gives 6 and `"eb"` in 1d
gives 2. -/
theorem boundary_number_code :
    (∀ geom ∈ geometryModes, ∀ p ∈ axesFor geom,
      get_boundary_number geom (p.1 ++ "_lo") = .ok (2 * p.2)
      ∧ get_boundary_number geom (p.1 ++ "_hi") = .ok (2 * p.2 + 1)
      ∧ get_boundary_number geom "eb" = .ok (2 * (axesFor geom).length))
    ∧ get_boundary_number "3d" "x_lo" = .ok 0
    ∧ get_boundary_number "3d" "z_hi" = .ok 5
    ∧ get_boundary_number "3d" "eb" = .ok 6
    ∧ get_boundary_number "1d" "eb" = .ok 2 := by decide

/-- Witness for C2: the general clause applied to the y axis in 3d. -/
theorem boundary_number_code_witness :
    get_boundary_number "3d" ("y" ++ "_lo") = .ok 2
    ∧ get_boundary_number "3d" ("y" ++ "_hi") = .ok 3
    ∧ get_boundary_number "3d" "eb" = .ok (2 * (axesFor "3d").length) :=
  boundary_number_code.1 "3d" (by decide) ("y", 1) (by decide)

/-- On every recognized geometry, `dimensionsFor` succeeds with the axis
dictionary of that geometry. -/
theorem dimensionsFor_of_mem :
    ∀ geom ∈ geometryModes, dimensionsFor geom = .ok (axesFor geom) := by decide

/-- On an unrecognized geometry, `dimensionsFor` raises the
unknown-geometry `RuntimeError`. -/
theorem dimensionsFor_of_not_mem (geom : String) (h : geom ∉ geometryModes) :
    dimensionsFor geom =
      .error (.runtimeError ("Unknown simulation geometry: " ++ geom)) := by
  simp only [geometryModes, List.mem_cons, List.not_mem_nil, or_false] at h
  push_neg at h
  obtain ⟨h1, h2, h3, h4⟩ := h
  simp [dimensionsFor, h1, h2, h3, h4]

/-- **C5 counterexample.**  In 3d geometry the malformed boundary token
`"x_lo_junk"` — not of the form `axis_lo`/`axis_hi` and not `"eb"` — does
not fail at all: `_get_boundary_number` accepts it and returns 0, because
the code only reads the first two underscore-separated parts of the token. -/
theorem boundary_number_malformed_token_accepted :
    get_boundary_number "3d" "x_lo_junk" = .ok 0 := rfl

/-- **C5 (amended).**  An unknown geometry fails with the
unknown-geometry `RuntimeError` for every token.  For a recognized
geometry and a token other than `"eb"`, splitting the token at
underscores: a first part that is not an axis of the geometry fails with
a `KeyError`; a missing second part fails with an `IndexError`; a second
part other than `lo`/`hi` fails with the unknown-boundary `RuntimeError`;
and a valid axis with side `lo`/`hi` succeeds with code 2*axis + side
even when further parts follow. -/
theorem boundary_number_failure_modes (geom boundary : String) :
    (geom ∉ geometryModes →
      get_boundary_number geom boundary =
        .error (.runtimeError ("Unknown simulation geometry: " ++ geom)))
    ∧ (geom ∈ geometryModes → boundary ≠ "eb" →
       ∀ p0 rest, pySplitUnderscore boundary = p0 :: rest →
        (dictGet (axesFor geom) p0 = .error (.keyError p0) →
          get_boundary_number geom boundary = .error (.keyError p0))
        ∧ ∀ a, dictGet (axesFor geom) p0 = .ok a →
           ((rest = [] → get_boundary_number geom boundary = .error .indexError)
            ∧ ∀ p1 rest2, rest = p1 :: rest2 →
               ((p1 = "lo" → get_boundary_number geom boundary = .ok (2 * a))
                ∧ (p1 = "hi" → get_boundary_number geom boundary = .ok (2 * a + 1))
                ∧ (p1 ≠ "lo" → p1 ≠ "hi" →
                   get_boundary_number geom boundary =
                     .error (.runtimeError ("Unknown boundary specified: " ++ boundary)))))) := by
  constructor
  · intro hg
    simp [get_boundary_number, dimensionsFor_of_not_mem geom hg]
  · intro hg hb p0 rest hsplit
    have hd := dimensionsFor_of_mem geom hg
    refine ⟨fun hk => ?_, fun a ha =>
      ⟨fun hrest => ?_, fun p1 rest2 hr =>
        ⟨fun h1 => ?_, fun h1 => ?_, fun h1 h2 => ?_⟩⟩⟩
    · simp [get_boundary_number, hd, hb, hsplit, pyGet, hk]
    · subst hrest; simp [get_boundary_number, hd, hb, hsplit, pyGet, ha]
    · subst hr h1; simp [get_boundary_number, hd, hb, hsplit, pyGet, ha]
    · subst hr h1; simp [get_boundary_number, hd, hb, hsplit, pyGet, ha]
    · subst hr; simp [get_boundary_number, hd, hb, hsplit, pyGet, ha, h1, h2]

/-- A supplied size-1 built-in argument is broadcast to `maxlen` copies of
its value, an omitted one to `maxlen` zeros, and the result always has
length `maxlen` when the argument passed its assert. -/
theorem broadcastField_spec (f : PyField) (m : Nat) (h : fieldOk f m = true) :
    (broadcastField f m).length = m
    ∧ (f = none → broadcastField f m = List.replicate m 0)
    ∧ (∀ l, f = some l → l.length = 1 →
        broadcastField f m = List.replicate m (l.headD 0)) := by
  cases f with
  | none => simp [broadcastField]
  | some l =>
    simp only [fieldOk, Bool.or_eq_true, beq_iff_eq] at h
    refine ⟨?_, by simp, ?_⟩
    · simp only [broadcastField]
      split
      · simp
      · rename_i h1
        simp only [beq_iff_eq] at h1
        rcases h with h | h
        · exact h
        · exact absurd h h1
    · intro l2 hl2 hlen
      injection hl2 with hl2
      subst hl2
      simp [broadcastField, hlen]

/-- If no built-in assert failed, every built-in argument satisfies its
assert condition. -/
theorem firstBadBuiltin_none_elim (x y z ux uy uz w : PyField) (m : Nat)
    (h : firstBadBuiltin x y z ux uy uz w m = none) :
    fieldOk x m = true ∧ fieldOk y m = true ∧ fieldOk z m = true
    ∧ fieldOk ux m = true ∧ fieldOk uy m = true ∧ fieldOk uz m = true
    ∧ fieldOk w m = true := by
  unfold firstBadBuiltin at h
  split_ifs at h
  all_goals simp_all

/-- If the first built-in assert failure names `nm`, then `nm` names a
built-in argument that was supplied with a size that is neither `maxlen`
nor 1. -/
theorem firstBadBuiltin_some_elim (x y z ux uy uz w : PyField) (m : Nat)
    (nm : String) (h : firstBadBuiltin x y z ux uy uz w m = some nm) :
    ∃ f, (nm, f) ∈ builtinFields x y z ux uy uz w ∧ fieldOk f m = false := by
  unfold firstBadBuiltin at h
  split_ifs at h
  all_goals (injection h with h; subst h; simp_all [builtinFields, Bool.not_eq_true])

/-- If no keyword-attribute assert failed, every keyword attribute has
size 1 or `maxlen`. -/
theorem firstBadKwarg_none_elim (kwargs : List (String × List ℚ)) (m : Nat)
    (h : firstBadKwarg kwargs m = none) :
    ∀ kv ∈ kwargs, kv.2.length = 1 ∨ kv.2.length = m := by
  induction kwargs with
  | nil => simp
  | cons hd rest ih =>
    obtain ⟨k, v⟩ := hd
    simp only [firstBadKwarg] at h
    split at h
    · rename_i hcond
      simp only [Bool.or_eq_true, beq_iff_eq] at hcond
      intro kv hm
      rcases List.mem_cons.mp hm with rfl | hm2
      · exact hcond
      · exact ih h kv hm2
    · exact absurd h (by simp)

/-- If the first keyword-attribute assert failure names `nm`, then `nm`
is the key of a keyword attribute whose size is neither 1 nor `maxlen`. -/
theorem firstBadKwarg_some_elim (kwargs : List (String × List ℚ)) (m : Nat)
    (nm : String) (h : firstBadKwarg kwargs m = some nm) :
    ∃ v, (nm, v) ∈ kwargs ∧ v.length ≠ 1 ∧ v.length ≠ m := by
  induction kwargs with
  | nil => exact absurd h (by simp [firstBadKwarg])
  | cons hd rest ih =>
    obtain ⟨k, v⟩ := hd
    simp only [firstBadKwarg] at h
    split at h
    · obtain ⟨v2, hm, hv2⟩ := ih h
      exact ⟨v2, List.mem_cons_of_mem _ hm, hv2⟩
    · rename_i hcond
      simp only [Bool.or_eq_true, beq_iff_eq, not_or] at hcond
      injection h with h
      subst h
      exact ⟨v, List.mem_cons_self .., hcond⟩

/-- If some built-in argument or keyword attribute has a bad size then
one of the two assert passes reports a failure. -/
theorem some_assert_fails (x y z ux uy uz w : PyField)
    (kwargs : List (String × List ℚ)) (m : Nat) (nm0 : String)
    (hbad : (∃ l, (nm0, some l) ∈ builtinFields x y z ux uy uz w
              ∧ l.length ≠ m ∧ l.length ≠ 1)
            ∨ (∃ v, (nm0, v) ∈ kwargs ∧ v.length ≠ 1 ∧ v.length ≠ m)) :
    firstBadBuiltin x y z ux uy uz w m ≠ none
    ∨ (firstBadBuiltin x y z ux uy uz w m = none ∧ firstBadKwarg kwargs m ≠ none) := by
  by_cases hb : firstBadBuiltin x y z ux uy uz w m = none
  · right
    refine ⟨hb, ?_⟩
    intro hk
    have hall := firstBadBuiltin_none_elim x y z ux uy uz w m hb
    have hkw := firstBadKwarg_none_elim kwargs m hk
    rcases hbad with ⟨l, hm, h1, h2⟩ | ⟨v, hm, h1, h2⟩
    · simp only [builtinFields, List.mem_cons, List.not_mem_nil, or_false,
        Prod.mk.injEq] at hm
      rcases hm with ⟨-, hf⟩ | ⟨-, hf⟩ | ⟨-, hf⟩ | ⟨-, hf⟩ | ⟨-, hf⟩ | ⟨-, hf⟩ | ⟨-, hf⟩ <;>
        · rw [← hf] at hall
          simp only [fieldOk, Bool.or_eq_true, beq_iff_eq] at hall
          tauto
    · have := hkw (nm0, v) hm
      simp only at this
      tauto
  · left
    exact hb

/-- Inversion of a successful numpy column assignment: the resolved index
is in range and the new table agrees with the old one except on the
written column. -/
theorem npSetColumn_ok_elim (nattr : Nat) (attr : Nat → Nat → ℚ) (c : Int)
    (vals : List ℚ) (attr2 : Nat → Nat → ℚ)
    (h : npSetColumn nattr attr c vals = .ok attr2) :
    0 ≤ npEffIndex nattr c ∧ npEffIndex nattr c < nattr
    ∧ ∀ i j, attr2 i j =
        if j = (npEffIndex nattr c).toNat then vals.getD i 0 else attr i j := by
  unfold npSetColumn at h
  split at h
  · rename_i hc
    injection h with h
    subst h
    exact ⟨hc.1, hc.2, fun i j => rfl⟩
  · exact Except.noConfusion h

/-- A successful keyword-attribute loop leaves every column that no
keyword attribute resolves to unchanged. -/
theorem applyKwargAttrs_preserve (pc : ParticleContainer) (geom : String)
    (nattr : Nat) (kws : List (String × List ℚ)) (attr attr2 : Nat → Nat → ℚ)
    (h : applyKwargAttrs pc geom nattr attr kws = .ok attr2) (j : Nat)
    (hj : ∀ kv ∈ kws,
      (npEffIndex nattr ((pc.get_comp_index kv.1 : Int) - builtInAttrs geom)).toNat ≠ j) :
    ∀ i, attr2 i j = attr i j := by
  induction kws generalizing attr with
  | nil =>
    simp only [applyKwargAttrs] at h
    injection h with h
    subst h
    intro i
    rfl
  | cons hd rest ih =>
    obtain ⟨k, v⟩ := hd
    simp only [applyKwargAttrs] at h
    split at h
    · exact Except.noConfusion h
    rename_i attr1 hset
    intro i
    have hpres := ih attr1 h (fun kv hm => hj kv (List.mem_cons_of_mem _ hm)) i
    rw [hpres]
    obtain ⟨-, -, hveq⟩ := npSetColumn_ok_elim _ _ _ _ _ hset
    rw [hveq i j, if_neg]
    intro hjj
    exact hj (k, v) (List.mem_cons_self ..) (by rw [hjj])

/-- A successful keyword-attribute loop stores each keyword attribute in
the column `get_comp_index(key) - built_in_attrs`, provided all keys have
pairwise distinct schema indices above the built-in count. -/
theorem applyKwargAttrs_writes (pc : ParticleContainer) (geom : String)
    (nattr : Nat) (kws : List (String × List ℚ)) (attr attr2 : Nat → Nat → ℚ)
    (h : applyKwargAttrs pc geom nattr attr kws = .ok attr2)
    (hdist : kws.Pairwise (fun a c => pc.get_comp_index a.1 ≠ pc.get_comp_index c.1))
    (hpos : ∀ kv ∈ kws, builtInAttrs geom < pc.get_comp_index kv.1) :
    ∀ kv ∈ kws, ∀ i,
      attr2 i (pc.get_comp_index kv.1 - builtInAttrs geom) = kv.2.getD i 0 := by
  induction kws generalizing attr with
  | nil => simp
  | cons hd rest ih =>
    obtain ⟨k, v⟩ := hd
    simp only [applyKwargAttrs] at h
    split at h
    · exact Except.noConfusion h
    rename_i attr1 hset
    have hposk : builtInAttrs geom < pc.get_comp_index k := hpos (k, v) (List.mem_cons_self ..)
    have heff : (npEffIndex nattr ((pc.get_comp_index k : Int) - builtInAttrs geom)).toNat
        = pc.get_comp_index k - builtInAttrs geom := by
      unfold npEffIndex
      split <;> omega
    intro kv hm i
    rcases List.mem_cons.mp hm with rfl | hm2
    · have hpres := applyKwargAttrs_preserve pc geom nattr rest attr1 attr2 h
        (pc.get_comp_index k - builtInAttrs geom) ?_ i
      · rw [hpres]
        obtain ⟨-, -, hveq⟩ := npSetColumn_ok_elim _ _ _ _ _ hset
        rw [hveq, heff, if_pos rfl]
      · intro kv2 hm2
        have hne : pc.get_comp_index k ≠ pc.get_comp_index kv2.1 :=
          (List.pairwise_cons.mp hdist).1 kv2 hm2
        have hpos2 := hpos kv2 (List.mem_cons_of_mem _ hm2)
        have heff2 : (npEffIndex nattr
            ((pc.get_comp_index kv2.1 : Int) - builtInAttrs geom)).toNat
            = pc.get_comp_index kv2.1 - builtInAttrs geom := by
          unfold npEffIndex
          split <;> omega
        rw [heff2]
        omega
    · exact ih attr1 h (List.pairwise_cons.mp hdist).2
        (fun kv2 hm3 => hpos kv2 (List.mem_cons_of_mem _ hm3)) kv hm2 i

/-- Inversion of a successful `add_particles` call: both assert passes
succeeded, the column count is `num_real_comps - built_in_attrs`, the
submitted arrays are the broadcast arguments, and the attribute table is
the zero table with the weight column written and then each keyword
attribute applied. -/
theorem add_particles_ok_elim (pc : ParticleContainer) (geom : String)
    (x y z ux uy uz w : PyField) (u : Bool) (kwargs : List (String × List ℚ))
    (b : Batch) (hok : add_particles pc geom x y z ux uy uz w u kwargs = .ok b) :
    firstBadBuiltin x y z ux uy uz w (maxlenOf x y z ux uy uz w) = none
    ∧ firstBadKwarg kwargs (maxlenOf x y z ux uy uz w) = none
    ∧ builtInAttrs geom ≤ pc.num_real_comps
    ∧ b.nattr = pc.num_real_comps - builtInAttrs geom
    ∧ b.x = broadcastField x (maxlenOf x y z ux uy uz w)
    ∧ b.y = broadcastField y (maxlenOf x y z ux uy uz w)
    ∧ b.z = broadcastField z (maxlenOf x y z ux uy uz w)
    ∧ b.ux = broadcastField ux (maxlenOf x y z ux uy uz w)
    ∧ b.uy = broadcastField uy (maxlenOf x y z ux uy uz w)
    ∧ b.uz = broadcastField uz (maxlenOf x y z ux uy uz w)
    ∧ b.n = b.x.length
    ∧ (∃ attr0,
        npSetColumn b.nattr (fun _ _ => 0) 0
            (broadcastField w (maxlenOf x y z ux uy uz w)) = .ok attr0
        ∧ applyKwargAttrs pc geom b.nattr attr0
            (broadcastKwargs kwargs (maxlenOf x y z ux uy uz w)) = .ok b.attr)
    ∧ b.nattr_int = 0 ∧ b.attr_int = [] ∧ b.unique_particles = u := by
  simp only [add_particles] at hok
  split at hok
  · exact Except.noConfusion hok
  rename_i hbad
  split at hok
  · exact Except.noConfusion hok
  rename_i hkw
  split at hok
  · exact Except.noConfusion hok
  rename_i hnn
  split at hok
  · exact Except.noConfusion hok
  rename_i attr0 hset
  split at hok
  · exact Except.noConfusion hok
  rename_i attr happly
  injection hok with hok
  subst hok
  refine ⟨hbad, hkw, by omega, by simp only; omega, rfl, rfl, rfl, rfl, rfl, rfl, rfl,
    ⟨attr0, ?_, ?_⟩, rfl, rfl, rfl⟩
  · exact hset
  · exact happly

/-- Witness for the amended C5: one concrete input for each failure mode,
plus one accepted token. -/
theorem boundary_number_failure_modes_witness :
    get_boundary_number "xy" "x_lo" =
      .error (.runtimeError ("Unknown simulation geometry: " ++ "xy"))
    ∧ get_boundary_number "3d" "q_lo" = .error (.keyError "q")
    ∧ get_boundary_number "3d" "z" = .error .indexError
    ∧ get_boundary_number "3d" "x_mid" =
      .error (.runtimeError ("Unknown boundary specified: " ++ "x_mid"))
    ∧ get_boundary_number "3d" "y_hi" = .ok (2 * 1 + 1) := by
  refine ⟨(boundary_number_failure_modes "xy" "x_lo").1 (by decide), ?_, ?_, ?_, ?_⟩
  · exact ((boundary_number_failure_modes "3d" "q_lo").2 (by decide) (by decide)
      "q" ["lo"] rfl).1 rfl
  · exact (((boundary_number_failure_modes "3d" "z").2 (by decide) (by decide)
      "z" [] rfl).2 2 rfl).1 rfl
  · exact ((((boundary_number_failure_modes "3d" "x_mid").2 (by decide) (by decide)
      "x" ["mid"] rfl).2 0 rfl).2 "mid" [] rfl).2.2 (by decide) (by decide)
  · exact ((((boundary_number_failure_modes "3d" "y_hi").2 (by decide) (by decide)
      "y" ["hi"] rfl).2 1 rfl).2 "hi" [] rfl).2.1 rfl

/-- Reading a replicated list with default 0 gives the replicated value
inside the length and 0 outside. -/
theorem getD_replicate (a : ℚ) (m i : Nat) :
    (List.replicate m a).getD i 0 = if i < m then a else 0 := by
  by_cases hi : i < m
  · rw [List.getD_eq_getElem _ _ (by simpa using hi), List.getElem_replicate, if_pos hi]
  · rw [List.getD_eq_default _ _ (by simpa using Nat.le_of_not_lt hi), if_neg hi]

/-- **C1 counterexample.**  A keyword attribute does not contribute to
the batch size: with no built-in argument supplied the batch size is 0,
so a keyword attribute of size 2 — which the claim says would set N = 2
and be accepted — fails the shape assert instead of producing a batch. -/
theorem add_particles_kwarg_excluded_from_batch_size :
    add_particles sampleContainer "3d" none none none none none none none true
      [("tag", [1, 2])] =
      .error (.assertionError "Length of tag doesn\x27t match len of others") := rfl

/-- **C1 (amended).**  The batch size N is the maximum size over the
supplied built-in fields only (keyword attributes do not contribute), 0
when none is supplied; every supplied built-in field of size 1 is
broadcast to an array of length N, an omitted field is filled with the
default 0, and the weight column behaves the same way inside the
attribute table (provided no keyword attribute resolves to column 0). -/
theorem add_particles_batch_broadcast (pc : ParticleContainer) (geom : String)
    (x y z ux uy uz w : PyField) (u : Bool) (kwargs : List (String × List ℚ))
    (b : Batch) (hok : add_particles pc geom x y z ux uy uz w u kwargs = .ok b) :
    b.n = maxlenOf x y z ux uy uz w
    ∧ (x = none → y = none → z = none → ux = none → uy = none → uz = none →
        w = none → b.n = 0)
    ∧ (∀ fc ∈ [(x, b.x), (y, b.y), (z, b.z), (ux, b.ux), (uy, b.uy), (uz, b.uz)],
        fc.2.length = b.n
        ∧ (fc.1 = none → fc.2 = List.replicate b.n 0)
        ∧ (∀ l, fc.1 = some l → l.length = 1 →
            fc.2 = List.replicate b.n (l.headD 0)))
    ∧ ((∀ kv ∈ kwargs,
          (npEffIndex b.nattr
            ((pc.get_comp_index kv.1 : Int) - builtInAttrs geom)).toNat ≠ 0) →
        (w = none → ∀ i, b.attr i 0 = 0)
        ∧ (∀ l, w = some l → l.length = 1 →
            ∀ i, b.attr i 0 = if i < b.n then l.headD 0 else 0)) := by
  obtain ⟨hb, hk, hle, hnattr, hx, hy, hz, hux, huy, huz, hn,
    ⟨attr0, hset, happ⟩, -, -, -⟩ :=
    add_particles_ok_elim pc geom x y z ux uy uz w u kwargs b hok
  obtain ⟨okx, oky, okz, okux, okuy, okuz, okw⟩ :=
    firstBadBuiltin_none_elim x y z ux uy uz w _ hb
  have hbn : b.n = maxlenOf x y z ux uy uz w := by
    rw [hn, hx]
    exact (broadcastField_spec x _ okx).1
  refine ⟨hbn, ?_, ?_, ?_⟩
  · intro h1 h2 h3 h4 h5 h6 h7
    subst h1 h2 h3 h4 h5 h6 h7
    rw [hbn]
    rfl
  · intro fc hfc
    simp only [List.mem_cons, List.not_mem_nil, or_false] at hfc
    rcases hfc with rfl | rfl | rfl | rfl | rfl | rfl
    · rw [hx, hbn]; exact broadcastField_spec x _ okx
    · rw [hy, hbn]; exact broadcastField_spec y _ oky
    · rw [hz, hbn]; exact broadcastField_spec z _ okz
    · rw [hux, hbn]; exact broadcastField_spec ux _ okux
    · rw [huy, hbn]; exact broadcastField_spec uy _ okuy
    · rw [huz, hbn]; exact broadcastField_spec uz _ okuz
  · intro hj0
    have hj0b : ∀ kv ∈ broadcastKwargs kwargs (maxlenOf x y z ux uy uz w),
        (npEffIndex b.nattr
          ((pc.get_comp_index kv.1 : Int) - builtInAttrs geom)).toNat ≠ 0 := by
      intro kv hm2
      obtain ⟨kv0, hkv0, hkv0eq⟩ := List.mem_map.mp hm2
      rw [← hkv0eq]
      exact hj0 kv0 hkv0
    have hcol : ∀ i, b.attr i 0 = attr0 i 0 :=
      applyKwargAttrs_preserve pc geom b.nattr _ attr0 b.attr happ 0 hj0b
    obtain ⟨-, -, hveq⟩ := npSetColumn_ok_elim _ _ _ _ _ hset
    have heff0 : (npEffIndex b.nattr 0).toNat = 0 := by
      unfold npEffIndex
      split <;> omega
    have hattr0 : ∀ i, attr0 i 0 =
        (broadcastField w (maxlenOf x y z ux uy uz w)).getD i 0 := by
      intro i
      rw [hveq i 0, heff0]
      simp
    constructor
    · intro hw i
      rw [hcol i, hattr0 i, hw]
      simp only [broadcastField, getD_replicate]
      split <;> rfl
    · intro l hw hl i
      rw [hcol i, hattr0 i, (broadcastField_spec w _ okw).2.2 l hw hl,
        getD_replicate, hbn]

/-- Witness for the amended C1: a concrete call with one size-2 field,
one scalar weight and the rest omitted. -/
theorem add_particles_batch_broadcast_witness :
    sampleBatch.n = maxlenOf (some [5, 6]) none none none none none (some [7])
    ∧ ((some [5, 6] : PyField) = none → (none : PyField) = none →
        (none : PyField) = none → (none : PyField) = none →
        (none : PyField) = none → (none : PyField) = none →
        (some [7] : PyField) = none → sampleBatch.n = 0)
    ∧ (∀ fc ∈ [((some [5, 6] : PyField), sampleBatch.x), (none, sampleBatch.y),
        (none, sampleBatch.z), (none, sampleBatch.ux), (none, sampleBatch.uy),
        (none, sampleBatch.uz)],
        fc.2.length = sampleBatch.n
        ∧ (fc.1 = none → fc.2 = List.replicate sampleBatch.n 0)
        ∧ (∀ l, fc.1 = some l → l.length = 1 →
            fc.2 = List.replicate sampleBatch.n (l.headD 0)))
    ∧ ((∀ kv ∈ ([] : List (String × List ℚ)),
          (npEffIndex sampleBatch.nattr
            ((sampleContainer.get_comp_index kv.1 : Int) - builtInAttrs "3d")).toNat ≠ 0) →
        ((some [7] : PyField) = none → ∀ i, sampleBatch.attr i 0 = 0)
        ∧ (∀ l, (some [7] : PyField) = some l → l.length = 1 →
            ∀ i, sampleBatch.attr i 0 = if i < sampleBatch.n then l.headD 0 else 0)) :=
  add_particles_batch_broadcast sampleContainer "3d" (some [5, 6]) none none none
    none none (some [7]) true [] sampleBatch rfl

/-- **C3.**  When some supplied field (built-in or keyword) has a size
that is neither 1 nor the batch size, `add_particles` fails with the
shape-mismatch `AssertionError` naming an offending field, and no batch
is submitted (the result is an error, not a batch). -/
theorem add_particles_shape_mismatch (pc : ParticleContainer) (geom : String)
    (x y z ux uy uz w : PyField) (u : Bool) (kwargs : List (String × List ℚ))
    (nm0 : String)
    (hbad : offendingField x y z ux uy uz w kwargs (maxlenOf x y z ux uy uz w) nm0) :
    ∃ nm, offendingField x y z ux uy uz w kwargs (maxlenOf x y z ux uy uz w) nm
      ∧ add_particles pc geom x y z ux uy uz w u kwargs =
          .error (.assertionError
            ("Length of " ++ nm ++ " doesn\x27t match len of others")) := by
  have hf := some_assert_fails x y z ux uy uz w kwargs
    (maxlenOf x y z ux uy uz w) nm0 hbad
  rcases hf with hb | ⟨hb, hk⟩
  · obtain ⟨nm2, hnm2⟩ := Option.ne_none_iff_exists'.mp hb
    obtain ⟨f, hmem, hfo⟩ := firstBadBuiltin_some_elim x y z ux uy uz w _ nm2 hnm2
    have hfl : ∃ l, f = some l
        ∧ l.length ≠ maxlenOf x y z ux uy uz w ∧ l.length ≠ 1 := by
      cases f with
      | none => simp [fieldOk] at hfo
      | some l =>
        refine ⟨l, rfl, ?_⟩
        simpa [fieldOk, Bool.or_eq_false_iff] using hfo
    obtain ⟨l, rfl, hl⟩ := hfl
    refine ⟨nm2, Or.inl ⟨l, hmem, hl⟩, ?_⟩
    simp [add_particles, hnm2]
  · obtain ⟨nm2, hnm2⟩ := Option.ne_none_iff_exists'.mp hk
    obtain ⟨v, hmem, hv⟩ := firstBadKwarg_some_elim kwargs _ nm2 hnm2
    refine ⟨nm2, Or.inr ⟨v, hmem, hv⟩, ?_⟩
    simp [add_particles, hb, hnm2]

/-- Witness for C3: x of size 5 and y of size 3 trigger the mismatch. -/
theorem add_particles_shape_mismatch_witness :
    ∃ nm, offendingField (some [1, 2, 3, 4, 5]) (some [1, 2, 3]) none none none none
        none [] (maxlenOf (some [1, 2, 3, 4, 5]) (some [1, 2, 3]) none none none
          none none) nm
      ∧ add_particles sampleContainer "3d" (some [1, 2, 3, 4, 5]) (some [1, 2, 3])
          none none none none none true [] =
        .error (.assertionError
          ("Length of " ++ nm ++ " doesn\x27t match len of others")) :=
  add_particles_shape_mismatch sampleContainer "3d" (some [1, 2, 3, 4, 5])
    (some [1, 2, 3]) none none none none none true [] "y"
    (Or.inl ⟨[1, 2, 3], by decide, by decide, by decide⟩)

/-- **C4.**  For a successful `add_particles` call whose keyword
attributes have pairwise distinct schema indices above the built-in
count, the attribute table has N rows and `num_real_comps -
built_in_attrs` columns, where the built-in count is 3, or 4 in RZ
geometry; column 0 holds the broadcast weights and each keyword attribute
lands in column `get_comp_index(key) - built_in_attrs`. -/
theorem add_particles_attr_table (pc : ParticleContainer) (geom : String)
    (x y z ux uy uz w : PyField) (u : Bool) (kwargs : List (String × List ℚ))
    (b : Batch) (hok : add_particles pc geom x y z ux uy uz w u kwargs = .ok b)
    (hdist : kwargs.Pairwise
      (fun a c => pc.get_comp_index a.1 ≠ pc.get_comp_index c.1))
    (hpos : ∀ kv ∈ kwargs, builtInAttrs geom < pc.get_comp_index kv.1) :
    b.n = maxlenOf x y z ux uy uz w
    ∧ b.nattr = pc.num_real_comps - builtInAttrs geom
    ∧ (geom = "rz" → builtInAttrs geom = 4)
    ∧ (geom ≠ "rz" → builtInAttrs geom = 3)
    ∧ (∀ i, b.attr i 0 =
        (broadcastField w (maxlenOf x y z ux uy uz w)).getD i 0)
    ∧ (∀ kv ∈ kwargs, ∀ i,
        b.attr i (pc.get_comp_index kv.1 - builtInAttrs geom) =
          (if kv.2.length == 1
           then List.replicate (maxlenOf x y z ux uy uz w) (kv.2.headD 0)
           else kv.2).getD i 0) := by
  obtain ⟨hb, hk, hle, hnattr, hx, hy, hz, hux, huy, huz, hn,
    ⟨attr0, hset, happ⟩, -, -, -⟩ :=
    add_particles_ok_elim pc geom x y z ux uy uz w u kwargs b hok
  obtain ⟨okx, -, -, -, -, -, okw⟩ :=
    firstBadBuiltin_none_elim x y z ux uy uz w _ hb
  have hbn : b.n = maxlenOf x y z ux uy uz w := by
    rw [hn, hx]
    exact (broadcastField_spec x _ okx).1
  have hposb : ∀ kv ∈ broadcastKwargs kwargs (maxlenOf x y z ux uy uz w),
      builtInAttrs geom < pc.get_comp_index kv.1 := by
    intro kv hm2
    obtain ⟨kv0, hkv0, hkv0eq⟩ := List.mem_map.mp hm2
    rw [← hkv0eq]
    exact hpos kv0 hkv0
  refine ⟨hbn, hnattr, fun h => by simp [builtInAttrs, h],
    fun h => by simp [builtInAttrs, h], ?_, ?_⟩
  · have hj0b : ∀ kv ∈ broadcastKwargs kwargs (maxlenOf x y z ux uy uz w),
        (npEffIndex b.nattr
          ((pc.get_comp_index kv.1 : Int) - builtInAttrs geom)).toNat ≠ 0 := by
      intro kv hm2
      have hp := hposb kv hm2
      unfold npEffIndex
      split <;> omega
    have hcol : ∀ i, b.attr i 0 = attr0 i 0 :=
      applyKwargAttrs_preserve pc geom b.nattr _ attr0 b.attr happ 0 hj0b
    obtain ⟨-, -, hveq⟩ := npSetColumn_ok_elim _ _ _ _ _ hset
    have heff0 : (npEffIndex b.nattr 0).toNat = 0 := by
      unfold npEffIndex
      split <;> omega
    intro i
    rw [hcol i, hveq i 0, heff0]
    simp
  · have hdistb : (broadcastKwargs kwargs (maxlenOf x y z ux uy uz w)).Pairwise
        (fun a c => pc.get_comp_index a.1 ≠ pc.get_comp_index c.1) :=
      List.pairwise_map.mpr hdist
    have hw := applyKwargAttrs_writes pc geom b.nattr _ attr0 b.attr happ hdistb hposb
    intro kv hm2 i
    have hmem2 : (kv.1, if kv.2.length == 1
        then List.replicate (maxlenOf x y z ux uy uz w) (kv.2.headD 0)
        else kv.2) ∈ broadcastKwargs kwargs (maxlenOf x y z ux uy uz w) :=
      List.mem_map_of_mem _ hm2
    exact hw _ hmem2 i

/-- Witness for C4: a container with two extra attributes, a scalar
keyword attribute and a full-length one. -/
theorem add_particles_attr_table_witness :
    sampleBatch2.n = maxlenOf (some [1, 2]) none none none none none (some [7])
    ∧ sampleBatch2.nattr = sampleContainer2.num_real_comps - builtInAttrs "3d"
    ∧ ("3d" = "rz" → builtInAttrs "3d" = 4)
    ∧ ("3d" ≠ "rz" → builtInAttrs "3d" = 3)
    ∧ (∀ i, sampleBatch2.attr i 0 =
        (broadcastField (some [7])
          (maxlenOf (some [1, 2]) none none none none none (some [7]))).getD i 0)
    ∧ (∀ kv ∈ [("a", [(9 : ℚ)]), ("bb", [10, 11])], ∀ i,
        sampleBatch2.attr i
            (sampleContainer2.get_comp_index kv.1 - builtInAttrs "3d") =
          (if kv.2.length == 1
           then List.replicate (maxlenOf (some [1, 2]) none none none none none
             (some [7])) (kv.2.headD 0)
           else kv.2).getD i 0) :=
  add_particles_attr_table sampleContainer2 "3d" (some [1, 2]) none none none none
    none (some [7]) true [("a", [9]), ("bb", [10, 11])] sampleBatch2 rfl
    (by decide) (by decide)

/-- **C6.**  The coordinate queries that are invalid for the active
geometry — x in 1d, y in 1d/2d, r in 1d/2d, theta in 1d/2d — fail with
the unsupported-operation exception, whatever the stored particle data
and whatever the floating trigonometric primitives. -/
theorem coordinate_queries_unsupported (cos sin sqrt : ℚ → ℚ)
    (atan2 : ℚ → ℚ → ℚ) (d : PCWrapperData) :
    get_particle_x cos atan2 "1d" d =
      .error (.exception "get_particle_x: There is no x coordinate with 1D Cartesian")
    ∧ get_particle_y sin atan2 "1d" d =
      .error (.exception "get_particle_y: There is no y coordinate with 1D or 2D Cartesian")
    ∧ get_particle_y sin atan2 "2d" d =
      .error (.exception "get_particle_y: There is no y coordinate with 1D or 2D Cartesian")
    ∧ get_particle_r sqrt "1d" d =
      .error (.exception "get_particle_r: There is no r coordinate with 1D or 2D Cartesian")
    ∧ get_particle_r sqrt "2d" d =
      .error (.exception "get_particle_r: There is no r coordinate with 1D or 2D Cartesian")
    ∧ get_particle_theta atan2 "1d" d =
      .error (.exception "get_particle_theta: There is no theta coordinate with 1D or 2D Cartesian")
    ∧ get_particle_theta atan2 "2d" d =
      .error (.exception "get_particle_theta: There is no theta coordinate with 1D or 2D Cartesian") :=
  ⟨rfl, rfl, rfl, rfl, rfl, rfl, rfl⟩

/-- **C9.**  `get_particle_z` returns without raising in every geometry
mode: the stored `z` field in 3d, the stored `y` field in RZ and 2d, the
stored `x` field in 1d — and it never produces an error for any geometry
string. -/
theorem get_particle_z_total (d : PCWrapperData) :
    get_particle_z "3d" d = .ok (some (d.structs.map PTile.z))
    ∧ get_particle_z "rz" d = .ok (some (d.structs.map PTile.y))
    ∧ get_particle_z "2d" d = .ok (some (d.structs.map PTile.y))
    ∧ get_particle_z "1d" d = .ok (some (d.structs.map PTile.x))
    ∧ ∀ geom e, get_particle_z geom d ≠ .error e := by
  refine ⟨rfl, rfl, rfl, rfl, ?_⟩
  intro geom e
  unfold get_particle_z
  split_ifs <;> simp

/-- **C7.**  For every species and every boundary token the geometry
recognizes, clearing the boundary buffer and then querying the scraped
count returns 0. -/
theorem clear_then_query_zero (pb : ParticleBoundaryBuffer)
    (geom species boundary : String) (bn : Nat)
    (hvalid : get_boundary_number geom boundary = .ok bn) :
    get_particle_boundary_buffer_size (clear_buffer pb) geom species boundary =
      .ok 0 := by
  simp [get_particle_boundary_buffer_size, hvalid, clear_buffer, clear_particles,
    get_num_particles_in_container]

/-- Witness for C7: a buffer holding 5 particles everywhere, cleared and
queried at `x_lo` in 3d. -/
theorem clear_then_query_zero_witness :
    get_particle_boundary_buffer_size (clear_buffer ⟨fun _ _ => 5⟩)
      "3d" "electrons" "x_lo" = .ok 0 :=
  clear_then_query_zero ⟨fun _ _ => 5⟩ "3d" "electrons" "x_lo" 0 rfl

/-- **C8.**  `get_particle_boundary_buffer` reads the integer component
at index `num_int_comps() - 1` of the boundary container when `comp_name`
is `"step_scraped"`, and otherwise the real component at the index the
species' simulation container reports for `comp_name`. -/
theorem boundary_buffer_component_selection
    (containers : String → Nat → BufferPartContainer)
    (mypc : String → ParticleContainer)
    (geom species boundary comp_name : String) (bn : Nat)
    (hbn : get_boundary_number geom boundary = .ok bn) :
    (comp_name = "step_scraped" →
      get_particle_boundary_buffer containers mypc geom species boundary comp_name =
        .ok (.intArrays ((containers species bn).intData
          ((containers species bn).num_int_comps - 1))))
    ∧ (comp_name ≠ "step_scraped" →
      get_particle_boundary_buffer containers mypc geom species boundary comp_name =
        .ok (.realArrays ((containers species bn).realData
          ((mypc species).get_comp_index comp_name)))) := by
  constructor <;> intro h <;> simp [get_particle_boundary_buffer, hbn, h]

/-- Witness for C8: the `step_scraped` read at `x_lo` in 3d on concrete
container tables. -/
theorem boundary_buffer_component_selection_witness :
    (("step_scraped" : String) = "step_scraped" →
      get_particle_boundary_buffer sampleBufContainers sampleMypc
          "3d" "electrons" "x_lo" "step_scraped" =
        .ok (.intArrays ((sampleBufContainers "electrons" 0).intData
          ((sampleBufContainers "electrons" 0).num_int_comps - 1))))
    ∧ (("step_scraped" : String) ≠ "step_scraped" →
      get_particle_boundary_buffer sampleBufContainers sampleMypc
          "3d" "electrons" "x_lo" "step_scraped" =
        .ok (.realArrays ((sampleBufContainers "electrons" 0).realData
          ((sampleMypc "electrons").get_comp_index "step_scraped")))) :=
  boundary_buffer_component_selection sampleBufContainers sampleMypc
    "3d" "electrons" "x_lo" "step_scraped" 0 rfl

/-- **C10.**  `get_particle_boundary_buffer_structs` raises a `NameError`
on the undefined `_LP_c_int` before doing anything else, for every input. -/
theorem buffer_structs_always_raises (geom species boundary : String) (level : Nat) :
    get_particle_boundary_buffer_structs geom species boundary level =
      .error (.nameError "_LP_c_int") := rfl

end PyWarpX
